import Mathlib

/-!
Shallow embedding of the SAN7-ERP data-integration pipeline.

The pipeline has three source files:
* STEP-1-CRIME-DATA-FILTERING-R.R : loads raw Chicago crime records, formats
  district numbers as three digits, parses dates, filters 2004-2020, keeps the
  official districts 001-025, recodes the deprecated districts 013/021/023 to
  their post-2012 equivalents, assigns one of six crime-category labels, and
  writes crimeunits2409.parquet.
* STEP-2-ACS_CRIME_2005-2009.ipynb : areal tract-to-district weights from a
  spatial overlay, ACS 2005-2009 tract estimates aggregated to district level,
  crime counts per district-month, and crime rates per 1,000 residents.
* The unnamed notebook (src/unnamed/part_000, the 2010-2020 variant) : the same
  overlay and weighting, ACS 2010-2020 pulled per year, district-year
  aggregation with the areal proportion applied to each attribute, crime counts
  for 2010-2020 and rates per 1,000 residents.

Numeric columns are embedded as rationals, counts as naturals.  Third-party
geometry and date parsing are oracles passed as function arguments: the overlay
receives an intersection-area oracle, the date conversions receive a parser.
Dates are abstracted to the (year, month) granularity that the pipeline uses.
-/

namespace SAN7

/-! ## Spatial data model and areal weighting (both notebooks, Step 2) -/

/-- Police district record from the district boundary shapefile:
dist_num is the district identifier (a string such as "1", "10", "31"),
dist_label its label (such as "31ST"). -/
structure DistrictRow where
  dist_num : String
  dist_label : String
deriving DecidableEq

/-- One row of the geometric overlay output: a tract-district intersection
with its area (geometry.area after reprojection). -/
structure InterRow where
  tract : String
  dist : String
  area : ℚ
deriving DecidableEq

/-- Areal-weight record produced by the tracts_to_districts cell:
(tract id, district id, proportion). -/
structure WeightRow where
  tract : String
  dist : String
  proportion : ℚ
deriving DecidableEq

/-- Removal of district 31 from the district boundary table before the
overlay, in both notebooks: rows whose dist_label is 31ST are dropped. -/
def dropDistrict31 (districts : List DistrictRow) : List DistrictRow :=
  districts.filter fun d => decide (d.dist_label ≠ "31ST")

/-- Embedding of gpd.overlay with how set to intersection: the geometry work is
an oracle inter, where inter t d = some a means tract t and district d
intersect with area a.  The output has one row per intersecting pair drawn
from the two input tables. -/
def overlayIntersection (tracts : List String) (districts : List DistrictRow)
    (inter : String → String → Option ℚ) : List InterRow :=
  tracts.flatMap fun t =>
    districts.filterMap fun d => (inter t d.dist_num).map fun a => ⟨t, d.dist_num, a⟩

/-- Total intersected area of a tract: the groupby-transform sum of
intersection_area over all rows of that tract. -/
def totalTractArea (rows : List InterRow) (t : String) : ℚ :=
  ((rows.filter fun r => decide (r.tract = t)).map (·.area)).sum

/-- Areal-weight table: each overlay row becomes (tract, district,
intersection_area / total_tract_area).  Shared by both notebooks. -/
def tracts_to_districts (rows : List InterRow) : List WeightRow :=
  rows.map fun r => ⟨r.tract, r.dist, r.area / totalTractArea rows r.tract⟩

/-- The 2005-2009 notebook additionally filters the weight table by
dist_num different from 31.  (The source compares the string-typed dist_num
column with the integer 31; the comparison is embedded as the string test,
the generous reading under which the filter can actually remove rows.) -/
def tracts_to_districts2005 (rows : List InterRow) : List WeightRow :=
  (tracts_to_districts rows).filter fun r => decide (r.dist ≠ "31")

/-- Sum of the proportion column over the weight rows of one tract. -/
def sumProportions (w : List WeightRow) (t : String) : ℚ :=
  ((w.filter fun r => decide (r.tract = t)).map (·.proportion)).sum

/-! ## ACS survey data, 2010-2020 path (unnamed notebook, Steps 3-4) -/

/-- Survey attributes carried through both pipelines: total population
(B01003_001E / RK9E001), the three poverty variables (C17002_001E..003E /
RNBE001..003) and the four race/ethnicity variables (B03002_003E, 004E, 006E,
012E / RLIE003, 004, 006, 012). -/
inductive AcsVar
  | totalPop
  | povUniverse
  | povExtreme
  | povBelow
  | nhWhite
  | nhBlack
  | nhAsian
  | hispanic
deriving DecidableEq, Fintype

/-- One tract-year row of acs_data_post_2009 after the GEOID construction and
fillna: the geoid, the survey year, and the eight attribute values. -/
structure AcsRow where
  geoid : String
  year : ℤ
  val : AcsVar → ℚ

/-- One row of the merged-and-weighted table: the inner merge of
acs_data_post_2009 with tracts_to_districts on GEOID = geoid10. -/
structure MappedRow where
  geoid : String
  year : ℤ
  dist : String
  val : AcsVar → ℚ

/-- Merge of the ACS rows with the areal-weight table followed by the loop
that multiplies each ACS column by the proportion (the fillna that follows is
the identity on rationals). -/
def acs_mapped_post_2009 (acs : List AcsRow) (w : List WeightRow) : List MappedRow :=
  acs.flatMap fun a =>
    (w.filter fun r => decide (r.tract = a.geoid)).map fun r =>
      ⟨a.geoid, a.year, r.dist, fun v => a.val v * r.proportion⟩

/-- Keys of the district-year groupby on the mapped table: the distinct
(dist_num, year) pairs. -/
def district_aggregated_post_2009_keys (m : List MappedRow) : List (String × ℤ) :=
  (m.map fun r => (r.dist, r.year)).dedup

/-- One aggregated cell of district_aggregated_post_2009: the sum of an
attribute over the mapped rows of a district-year group. -/
def district_aggregated_post_2009_val (m : List MappedRow) (d : String) (y : ℤ)
    (v : AcsVar) : ℚ :=
  ((m.filter fun r => decide (r.dist = d ∧ r.year = y)).map fun r => r.val v).sum

/-- Left merge of the aggregated crime table with
district_aggregated_post_2009 on (District, year) = (dist_num, year): the
population is present exactly when the key is a groupby key, and then equals
the aggregated Total_Population. -/
def popLookupPost2009 (m : List MappedRow) (d : String) (y : ℤ) : Option ℚ :=
  if (d, y) ∈ district_aggregated_post_2009_keys m then
    some (district_aggregated_post_2009_val m d y AcsVar.totalPop)
  else none

/-- Modelled from the spec: the areal-weighting formula of the Data Model
section, in which a district-level attribute is the sum over intersecting
census tracts of the tract attribute value multiplied by that tract-district
areal proportion.  Stated over the two source tables; compared with the
aggregation the code computes. -/
def arealWeightedDistrictVal (acs : List AcsRow) (w : List WeightRow) (d : String)
    (y : ℤ) (v : AcsVar) : ℚ :=
  ((acs.filter fun a => decide (a.year = y)).map fun a =>
    (((w.filter fun r => decide (r.tract = a.geoid ∧ r.dist = d))).map fun r =>
      a.val v * r.proportion).sum).sum

/-! ## ACS survey data, 2005-2009 path (STEP-2 notebook, Steps 1-4) -/

/-- One tract row of acs2005_2009_chicago after the Cook County filter, the
fillna, and the census_tract_id construction. -/
structure Acs2005Row where
  census_tract_id : String
  val : AcsVar → ℚ

/-- One row of filtered_df in the 2005-2009 notebook: the inner merge of
tracts_to_districts with the ACS table on CENSUS_T_1 = census_tract_id, keeping
the raw Total_Population and poverty-universe counts, the derived race and
poverty percentages, the district and the proportion.  The proportion column
is carried but never applied to any attribute. -/
structure Filtered2005Row where
  total_population : ℚ
  pov_universe : ℚ
  percent_hispanic : ℚ
  percent_white : ℚ
  percent_black : ℚ
  percent_asian : ℚ
  poverty_percent : ℚ
  dist : String
  proportion : ℚ
deriving DecidableEq

/-- The merge and column computations building filtered_df (fillna at the end
is the identity on rationals). -/
def filtered_df (w : List WeightRow) (acs : List Acs2005Row) : List Filtered2005Row :=
  w.flatMap fun r =>
    (acs.filter fun a => decide (a.census_tract_id = r.tract)).map fun a =>
      { total_population := a.val AcsVar.totalPop
        pov_universe := a.val AcsVar.povUniverse
        percent_hispanic := a.val AcsVar.hispanic / a.val AcsVar.totalPop * 100
        percent_white := a.val AcsVar.nhWhite / a.val AcsVar.totalPop * 100
        percent_black := a.val AcsVar.nhBlack / a.val AcsVar.totalPop * 100
        percent_asian := a.val AcsVar.nhAsian / a.val AcsVar.totalPop * 100
        poverty_percent :=
          (a.val AcsVar.povExtreme + a.val AcsVar.povBelow) / a.val AcsVar.povUniverse * 100
        dist := r.dist
        proportion := r.proportion }

/-- Keys of the district groupby building district_aggregated2005. -/
def district_aggregated2005_keys (f : List Filtered2005Row) : List String :=
  (f.map (·.dist)).dedup

/-- Total_Population cell of district_aggregated2005: the plain sum of the
tract populations over the rows of the district group (the proportion column
is not used). -/
def district_aggregated2005_pop (f : List Filtered2005Row) (d : String) : ℚ :=
  ((f.filter fun r => decide (r.dist = d)).map (·.total_population)).sum

/-- Left merge of the 2005-2009 aggregated crime table with
district_aggregated2005 on District = dist_num (district only, not year). -/
def popLookup2005 (f : List Filtered2005Row) (d : String) : Option ℚ :=
  if d ∈ district_aggregated2005_keys f then some (district_aggregated2005_pop f d)
  else none

/-- Modelled from the spec: the areal-weighted district population the Data
Model section prescribes for the 2005-2009 aggregation, the sum over the
weight rows of a district of the tract population multiplied by the tract
proportion. -/
def arealWeightedPop2005 (w : List WeightRow) (acs : List Acs2005Row) (d : String) : ℚ :=
  ((w.filter fun r => decide (r.dist = d)).map fun r =>
    (((acs.filter fun a => decide (a.census_tract_id = r.tract)).map fun a =>
      a.val AcsVar.totalPop * r.proportion).sum)).sum

/-! ## Crime data, R filtering step (STEP-1) -/

/-- Date-times abstracted to the (year, month) granularity the pipeline uses:
the notebooks keep only dt.year and dt.month, and the R date filter is a
year-range filter at this granularity. -/
structure DT where
  year : ℤ
  month : ℕ
deriving DecidableEq

/-- Raw crime record as read from the CPD CSV, restricted to the columns the
transformations touch: the date string, the District after the as.numeric
conversion (none when the entry was not numeric), and the Primary Type. -/
structure RawCrimeRow where
  dateStr : String
  district : Option ℕ
  primaryType : String
deriving DecidableEq

/-- R sprintf with the %03d format: decimal digits left-padded with zeros to
at least three characters. -/
def sprintf03 (n : ℕ) : String :=
  let s := toString n
  if s.length < 3 then String.mk (List.replicate (3 - s.length) '0') ++ s else s

/-- District column after sprintf: a missing numeric district prints as NA. -/
def formatDistrict : Option ℕ → String
  | some n => sprintf03 n
  | none => "NA"

/-- The list named districts in the R step: the official districts 001-025
(old and new beat structure). -/
def districts : List String :=
  ["001", "002", "003", "004", "005", "006", "007", "008", "009",
   "010", "011", "012", "013", "014", "015", "016", "017", "018", "019",
   "020", "021", "022", "023", "024", "025"]

/-- Recode of the deprecated districts to their post-2012 equivalents:
013 to 012, 021 to 002, 023 to 019. -/
def district_mapping (s : String) : String :=
  if s = "013" then "012"
  else if s = "021" then "002"
  else if s = "023" then "019"
  else s

/-- Primary Type values categorized as Violent Crime. -/
def violentTypes : List String :=
  ["ROBBERY", "CRIMINAL SEXUAL ASSAULT", "OFFENSE INVOLVING CHILDREN",
   "CRIM SEXUAL ASSAULT", "ASSAULT", "SEX OFFENSE", "BATTERY", "HOMICIDE",
   "STALKING", "KIDNAPPING", "INTIMIDATION"]

/-- Primary Type values categorized as Property Crime. -/
def propertyTypes : List String :=
  ["THEFT", "DECEPTIVE PRACTICE", "BURGLARY", "MOTOR VEHICLE THEFT",
   "CRIMINAL TRESPASS", "CRIMINAL DAMAGE", "ARSON"]

/-- Primary Type values categorized as Drug-Related Crime. -/
def drugTypes : List String :=
  ["NARCOTICS", "OTHER NARCOTIC VIOLATION"]

/-- Primary Type values categorized as Public Order Crime. -/
def publicOrderTypes : List String :=
  ["WEAPONS VIOLATION", "LIQUOR LAW VIOLATION", "PUBLIC PEACE VIOLATION",
   "PROSTITUTION", "GAMBLING", "INTERFERENCE WITH PUBLIC OFFICER", "OBSCENITY",
   "PUBLIC INDECENCY"]

/-- Primary Type values categorized as Administrative or Non-Criminal. -/
def adminTypes : List String :=
  ["NON-CRIMINAL", "NON - CRIMINAL", "NON-CRIMINAL (SUBJECT SPECIFIED)",
   "CONCEALED CARRY LICENSE VIOLATION", "HUMAN TRAFFICKING", "OTHER OFFENSE"]

/-- The six fixed category labels, in the order of the case_when. -/
def crimeCategoryLabels : List String :=
  ["Violent Crime", "Property Crime", "Drug-Related Crime", "Public Order Crime",
   "Administrative or Non-Criminal", "Other"]

/-- The case_when mapping a Primary Type to one of the six broader crime
categories, with the catch-all Other branch last. -/
def Crime_Category (pt : String) : String :=
  if pt ∈ violentTypes then "Violent Crime"
  else if pt ∈ propertyTypes then "Property Crime"
  else if pt ∈ drugTypes then "Drug-Related Crime"
  else if pt ∈ publicOrderTypes then "Public Order Crime"
  else if pt ∈ adminTypes then "Administrative or Non-Criminal"
  else "Other"

/-- Crime record as written to crimeunits2409.parquet: parsed date (none when
lubridate mdy_hms could not parse the string; such rows are removed by the
date filter before the parquet is written), formatted district, Primary Type
and category. -/
structure RCrimeRow where
  date : Option DT
  district : String
  primaryType : String
  category : String
deriving DecidableEq

/-- The R filtering pipeline producing crimeunits2409.parquet.  mdy is the
lubridate mdy_hms parser (a third-party oracle; it yields NA, not an error,
on malformed input).  Steps in source order: date conversion and district
formatting, the 2004-2020 date filter (rows whose date is NA fail the
comparison and are dropped), the filter to the official districts, the
deprecated-district recode, and the category assignment. -/
def crime_units (mdy : String → Option DT) (rows : List RawCrimeRow) : List RCrimeRow :=
  let converted : List RCrimeRow := rows.map fun r =>
    { date := mdy r.dateStr
      district := formatDistrict r.district
      primaryType := r.primaryType
      category := "" }
  let dateFiltered := converted.filter fun r =>
    match r.date with
    | some d => decide (2004 ≤ d.year ∧ d.year ≤ 2020)
    | none => false
  let unitFiltered := dateFiltered.filter fun r => decide (r.district ∈ districts)
  let recoded := unitFiltered.map fun r => { r with district := district_mapping r.district }
  recoded.map fun r => { r with category := Crime_Category r.primaryType }

/-- Error mode of pandas to_datetime: with raiseMode an invalid parse is an
exception; with coerceMode it is coerced to the missing placeholder NaT.  The
notebooks call to_datetime with the coerce mode. -/
inductive DtMode
  | raiseMode
  | coerceMode
deriving DecidableEq

/-- Embedding of pandas pd.to_datetime on a single value, given a parser
oracle: in raise mode a parse failure is an error, in coerce mode it becomes
the placeholder none (NaT) inside a successful result. -/
def pd_to_datetime (parse : String → Option DT) : DtMode → String → Except String (Option DT)
  | DtMode.raiseMode, s =>
      match parse s with
      | some d => Except.ok (some d)
      | none => Except.error "ParserError"
  | DtMode.coerceMode, s => Except.ok (parse s)

/-! ## Crime aggregation and rates (both notebooks, Steps 5-8) -/

/-- The six crime categories, as an index type for the unstacked count
columns and the rate columns. -/
inductive Cat
  | violent
  | property
  | drug
  | admin
  | publicOrder
  | other
deriving DecidableEq, Fintype

/-- Label of a category, as it appears in the Crime_Category column. -/
def catLabel : Cat → String
  | Cat.violent => "Violent Crime"
  | Cat.property => "Property Crime"
  | Cat.drug => "Drug-Related Crime"
  | Cat.admin => "Administrative or Non-Criminal"
  | Cat.publicOrder => "Public Order Crime"
  | Cat.other => "Other"

/-- The crime_types list of the notebooks, in source order. -/
def crime_types : List Cat :=
  [Cat.violent, Cat.property, Cat.drug, Cat.admin, Cat.publicOrder, Cat.other]

/-- Year-range filter on the crime table: kept iff the year lies in the
range; a row whose date is the NaT placeholder fails the comparison and is
dropped (pandas comparisons with NaN are false). -/
def crime_filtered (lo hi : ℤ) (rows : List RCrimeRow) : List RCrimeRow :=
  rows.filter fun r =>
    match r.date with
    | some d => decide (lo ≤ d.year ∧ d.year ≤ hi)
    | none => false

/-- Keys of the groupby on (District, year, month): the distinct triples
among the filtered rows. -/
def groupKeys (rows : List RCrimeRow) : List (String × ℤ × ℕ) :=
  (rows.filterMap fun r => r.date.map fun d => (r.district, d.year, d.month)).dedup

/-- Unstacked count cell: the number of rows of a (District, year, month)
group carrying a category label. -/
def countCat (rows : List RCrimeRow) (d : String) (y : ℤ) (m : ℕ) (c : Cat) : ℕ :=
  (rows.filter fun r =>
    decide (r.district = d ∧ r.date = some ⟨y, m⟩ ∧ r.category = catLabel c)).length

/-- Python str.lstrip with the character 0: removes every leading zero. -/
def lstrip0 (s : String) : String :=
  String.mk (s.toList.dropWhile fun c => decide (c = '0'))

/-- Aggregated district-month record after the merge with the survey
aggregate: district identifier, year, month, the six per-category counts, and
the merged Total_Population (none when the left merge found no survey row). -/
structure CrimeAggRow where
  District : String
  year : ℤ
  month : ℕ
  violentCount : ℕ
  propertyCount : ℕ
  drugCount : ℕ
  adminCount : ℕ
  publicOrderCount : ℕ
  otherCount : ℕ
  Total_Population : Option ℚ
deriving DecidableEq

/-- Count column of a record, indexed by category. -/
def CrimeAggRow.count (r : CrimeAggRow) : Cat → ℕ
  | Cat.violent => r.violentCount
  | Cat.property => r.propertyCount
  | Cat.drug => r.drugCount
  | Cat.admin => r.adminCount
  | Cat.publicOrder => r.publicOrderCount
  | Cat.other => r.otherCount

/-- The 2010-2020 notebook: filter the crime table to 2010-2020, group by
(District, year, month) and unstack the category counts, strip leading zeros
from the District column of the aggregated table, and left-merge the survey
population on (District, year). -/
def crime_aggregated_2010_2020 (rows : List RCrimeRow) (m : List MappedRow) :
    List CrimeAggRow :=
  let filtered := crime_filtered 2010 2020 rows
  (groupKeys filtered).map fun k =>
    { District := lstrip0 k.1
      year := k.2.1
      month := k.2.2
      violentCount := countCat filtered k.1 k.2.1 k.2.2 Cat.violent
      propertyCount := countCat filtered k.1 k.2.1 k.2.2 Cat.property
      drugCount := countCat filtered k.1 k.2.1 k.2.2 Cat.drug
      adminCount := countCat filtered k.1 k.2.1 k.2.2 Cat.admin
      publicOrderCount := countCat filtered k.1 k.2.1 k.2.2 Cat.publicOrder
      otherCount := countCat filtered k.1 k.2.1 k.2.2 Cat.other
      Total_Population := popLookupPost2009 m (lstrip0 k.1) k.2.1 }

/-- The 2005-2009 notebook: filter the crime table to 2005-2009, strip
leading zeros from the District column (before the groupby in this notebook),
group by (District, year, month) and unstack the category counts, and
left-merge the survey population on District only. -/
def crime_aggregated_monthly2005 (rows : List RCrimeRow) (f : List Filtered2005Row) :
    List CrimeAggRow :=
  let filtered := (crime_filtered 2005 2009 rows).map fun r =>
    { r with district := lstrip0 r.district }
  (groupKeys filtered).map fun k =>
    { District := k.1
      year := k.2.1
      month := k.2.2
      violentCount := countCat filtered k.1 k.2.1 k.2.2 Cat.violent
      propertyCount := countCat filtered k.1 k.2.1 k.2.2 Cat.property
      drugCount := countCat filtered k.1 k.2.1 k.2.2 Cat.drug
      adminCount := countCat filtered k.1 k.2.1 k.2.2 Cat.admin
      publicOrderCount := countCat filtered k.1 k.2.1 k.2.2 Cat.publicOrder
      otherCount := countCat filtered k.1 k.2.1 k.2.2 Cat.other
      Total_Population := popLookup2005 f k.1 }

/-- Per-category monthly crime rate column: count divided by
Total_Population, times 1000.  The division happens for every row; a missing
population propagates to a missing rate. -/
def rate (r : CrimeAggRow) (c : Cat) : Option ℚ :=
  r.Total_Population.map fun p => (r.count c : ℚ) / p * 1000

/-- The total_crime_rate column: the DataFrame row sum of the six rate
columns, in which missing entries count as zero (pandas sum skips NaN). -/
def total_crime_rate (r : CrimeAggRow) : ℚ :=
  (crime_types.map fun c => (rate r c).getD 0).sum

/-- The 22 district identifiers reachable after the R filter, the recode and
the stripping of leading zeros. -/
def normalizedDistricts : List String :=
  ["1", "2", "3", "4", "5", "6", "7", "8", "9", "10", "11", "12",
   "14", "15", "16", "17", "18", "19", "20", "22", "24", "25"]

/-! ## Helper lemmas -/

lemma sumProportions_map (g : InterRow → ℚ) (l : List InterRow) (t : String) :
    sumProportions (l.map fun r => ⟨r.tract, r.dist, g r⟩) t
      = ((l.filter fun r => decide (r.tract = t)).map g).sum := by
  unfold sumProportions
  induction l with
  | nil => simp
  | cons r l ih =>
      by_cases h : r.tract = t <;> simp [List.filter_cons, h, ih]

lemma sum_filtered_div (rows : List InterRow) (t : String) :
    sumProportions (tracts_to_districts rows) t
      = totalTractArea rows t / totalTractArea rows t := by
  have hmap := sumProportions_map (fun r => r.area / totalTractArea rows r.tract) rows t
  have hcongr :
      (rows.filter fun r => decide (r.tract = t)).map
          (fun r => r.area / totalTractArea rows r.tract)
        = (rows.filter fun r => decide (r.tract = t)).map
          (fun r => r.area / totalTractArea rows t) := by
    apply List.map_congr_left
    intro a ha
    have ht : a.tract = t := of_decide_eq_true (List.mem_filter.mp ha).2
    rw [ht]
  calc sumProportions (tracts_to_districts rows) t
      = ((rows.filter fun r => decide (r.tract = t)).map
          (fun r => r.area / totalTractArea rows t)).sum := by
        rw [show tracts_to_districts rows
              = rows.map fun r => ⟨r.tract, r.dist, r.area / totalTractArea rows r.tract⟩
            from rfl, hmap, hcongr]
    _ = totalTractArea rows t / totalTractArea rows t := by
        simp only [div_eq_mul_inv]
        rw [List.sum_map_mul_right]
        rfl

lemma sumProportions_one (rows : List InterRow) (t : String)
    (ht : 0 < totalTractArea rows t) :
    sumProportions (tracts_to_districts rows) t = 1 := by
  rw [sum_filtered_div, div_self (ne_of_gt ht)]

lemma filter_eq_self_of_no31 (rows : List InterRow)
    (h31 : ∀ r ∈ rows, r.dist ≠ "31") :
    tracts_to_districts2005 rows = tracts_to_districts rows := by
  unfold tracts_to_districts2005
  apply List.filter_eq_self.mpr
  intro w hw
  unfold tracts_to_districts at hw
  obtain ⟨r, hr, hw⟩ := List.mem_map.mp hw
  subst hw
  exact decide_eq_true (h31 r hr)

/-! ## C1: areal proportions of a tract sum to 1 -/

/-- C1: for every census tract that appears in the areal-weight table with a
positive total intersected area, the proportion values across the intersecting
districts sum to 1; in the 2005-2009 variant of the table the same holds
provided no overlay row carries district 31 (which the upstream label filter
guarantees). -/
theorem C1_proportions_sum_to_one (rows : List InterRow) (t : String)
    (ht : 0 < totalTractArea rows t)
    (h31 : ∀ r ∈ rows, r.dist ≠ "31") :
    sumProportions (tracts_to_districts rows) t = 1 ∧
    sumProportions (tracts_to_districts2005 rows) t = 1 := by
  refine ⟨sumProportions_one rows t ht, ?_⟩
  rw [filter_eq_self_of_no31 rows h31]
  exact sumProportions_one rows t ht

/-- C1 witness: a tract split 1:3 between districts 1 and 2. -/
theorem C1_witness :
    0 < totalTractArea [⟨"t", "1", 1⟩, ⟨"t", "2", 3⟩] "t" ∧
    sumProportions (tracts_to_districts [⟨"t", "1", 1⟩, ⟨"t", "2", 3⟩]) "t" = 1 :=
  ⟨by norm_num [totalTractArea],
   (C1_proportions_sum_to_one [⟨"t", "1", 1⟩, ⟨"t", "2", 3⟩] "t"
     (by norm_num [totalTractArea]) (by decide)).1⟩

/-! ## C6: the crime-category mapping is total with the catch-all Other -/

/-- C6: the case_when assigns every Primary Type one of the six fixed labels,
and any Primary Type outside the listed sets is mapped to Other. -/
theorem C6_crime_category_total (pt : String) :
    Crime_Category pt ∈ crimeCategoryLabels ∧
    (pt ∉ violentTypes ++ propertyTypes ++ drugTypes ++ publicOrderTypes ++ adminTypes →
      Crime_Category pt = "Other") := by
  constructor
  · unfold Crime_Category
    split_ifs <;> simp [crimeCategoryLabels]
  · intro h
    simp only [List.mem_append, not_or] at h
    obtain ⟨⟨⟨⟨h1, h2⟩, h3⟩, h4⟩, h5⟩ := h
    simp [Crime_Category, h1, h2, h3, h4, h5]

/-- C6 witness: THEFT receives a fixed label and the unlisted type RITUALISM
falls through to Other. -/
theorem C6_witness :
    Crime_Category "THEFT" ∈ crimeCategoryLabels ∧
    Crime_Category "RITUALISM" = "Other" :=
  ⟨(C6_crime_category_total "THEFT").1,
   (C6_crime_category_total "RITUALISM").2 (by decide)⟩

/-! ## C8: the rate formulas -/

/-- C8: in every aggregated district-month record whose merged population is
present, each per-category rate column equals that category count divided by
Total_Population times 1000, and the total_crime_rate column equals the sum of
the six per-category rates. -/
theorem C8_rate_formulas (r : CrimeAggRow) (p : ℚ)
    (hp : r.Total_Population = some p) :
    (∀ c, rate r c = some ((r.count c : ℚ) / p * 1000)) ∧
    total_crime_rate r = (crime_types.map fun c => (r.count c : ℚ) / p * 1000).sum := by
  constructor
  · intro c
    simp [rate, hp]
  · unfold total_crime_rate
    congr 1
    apply List.map_congr_left
    intro c _
    simp [rate, hp]

/-- C8 witness: a record with two incidents in each category and population
10 has per-category rates 200 and total rate 1200. -/
theorem C8_witness :
    rate (⟨"1", 2010, 1, 2, 2, 2, 2, 2, 2, some 10⟩ : CrimeAggRow) Cat.violent
        = some 200 ∧
    total_crime_rate (⟨"1", 2010, 1, 2, 2, 2, 2, 2, 2, some 10⟩ : CrimeAggRow) = 1200 := by
  have h := C8_rate_formulas (⟨"1", 2010, 1, 2, 2, 2, 2, 2, 2, some 10⟩ : CrimeAggRow) 10 rfl
  refine ⟨?_, ?_⟩
  · rw [h.1 Cat.violent]
    norm_num [CrimeAggRow.count]
  · rw [h.2]
    norm_num [crime_types, CrimeAggRow.count]

/-! ## Crime pipeline membership lemmas -/

lemma mem_crime_units (mdy : String → Option DT) (rows : List RawCrimeRow)
    (r : RCrimeRow) (h : r ∈ crime_units mdy rows) :
    (∃ d, r.date = some d ∧ 2004 ≤ d.year ∧ d.year ≤ 2020) ∧
    (∃ s ∈ districts, r.district = district_mapping s) := by
  unfold crime_units at h
  obtain ⟨a, ha, rfl⟩ := List.mem_map.mp h
  obtain ⟨b, hb, rfl⟩ := List.mem_map.mp ha
  have h3 := List.mem_filter.mp hb
  have h4 := List.mem_filter.mp h3.1
  constructor
  · cases hd : b.date with
    | none => rw [hd] at h4; simp at h4
    | some d =>
        rw [hd] at h4
        simp only [decide_eq_true_eq] at h4
        exact ⟨d, by simp [hd], h4.2⟩
  · exact ⟨b.district, of_decide_eq_true h3.2, rfl⟩

/-! ## C7: malformed dates are coerced to placeholders, not exceptions -/

/-- C7 counterexample: on a malformed date string the conversion configured
by the code (coerce mode in the notebooks, NA-producing mdy_hms in R) returns
a successful result holding the NaT placeholder, and the R step silently
drops the row; no exception arises. -/
theorem C7_counterexample :
    pd_to_datetime (fun _ => none) DtMode.coerceMode "13/45/2020 25:61:61 PM"
        = Except.ok none ∧
    crime_units (fun _ => none) [⟨"13/45/2020 25:61:61 PM", some 1, "THEFT"⟩] = [] :=
  ⟨rfl, by decide⟩

/-- C7 amended: a malformed crime date never raises: the notebook conversion
runs in coerce mode and always returns successfully with the parse result
(NaT on failure), and the R step only lets through rows whose date parsed and
lies in 2004-2020, silently dropping the rest. -/
theorem C7_amended_placeholder_not_exception (parse mdy : String → Option DT)
    (rows : List RawCrimeRow) :
    (∀ s, pd_to_datetime parse DtMode.coerceMode s = Except.ok (parse s)) ∧
    (∀ r ∈ crime_units mdy rows, r.date ≠ none) ∧
    (∀ r ∈ crime_units mdy rows, ∀ d, r.date = some d →
      2004 ≤ d.year ∧ d.year ≤ 2020) := by
  refine ⟨fun s => rfl, ?_, ?_⟩
  · intro r hr
    obtain ⟨⟨d, hd, _⟩, _⟩ := mem_crime_units mdy rows r hr
    rw [hd]
    simp
  · intro r hr d hd
    obtain ⟨⟨d', hd', hb⟩, _⟩ := mem_crime_units mdy rows r hr
    rw [hd] at hd'
    cases Option.some.inj hd'
    exact hb

/-- C7 witness: a parser succeeding on a well-formed date, a surviving row,
and its in-range year. -/
theorem C7_witness :
    pd_to_datetime (fun _ => some ⟨2010, 1⟩) DtMode.coerceMode "1/1/2010 00:00:00 AM"
        = Except.ok (some ⟨2010, 1⟩) ∧
    (⟨some ⟨2010, 1⟩, "012", "THEFT", "Property Crime"⟩ : RCrimeRow).date ≠ none ∧
    (2004 ≤ (2010 : ℤ) ∧ (2010 : ℤ) ≤ 2020) :=
  ⟨(C7_amended_placeholder_not_exception (fun _ => some ⟨2010, 1⟩)
      (fun _ => some ⟨2010, 1⟩) [⟨"x", some 13, "THEFT"⟩]).1 "1/1/2010 00:00:00 AM",
   (C7_amended_placeholder_not_exception (fun _ => some ⟨2010, 1⟩)
      (fun _ => some ⟨2010, 1⟩) [⟨"x", some 13, "THEFT"⟩]).2.1
     ⟨some ⟨2010, 1⟩, "012", "THEFT", "Property Crime"⟩ (by decide),
   (C7_amended_placeholder_not_exception (fun _ => some ⟨2010, 1⟩)
      (fun _ => some ⟨2010, 1⟩) [⟨"x", some 13, "THEFT"⟩]).2.2
     ⟨some ⟨2010, 1⟩, "012", "THEFT", "Property Crime"⟩ (by decide) ⟨2010, 1⟩ rfl⟩

lemma mem_groupKeys (rows : List RCrimeRow) (k : String × ℤ × ℕ)
    (hk : k ∈ groupKeys rows) : ∃ r ∈ rows, r.district = k.1 := by
  unfold groupKeys at hk
  have hk' := List.mem_dedup.mp hk
  obtain ⟨r, hr, hmap⟩ := List.mem_filterMap.mp hk'
  cases hd : r.date with
  | none => rw [hd] at hmap; simp at hmap
  | some d =>
      rw [hd] at hmap
      simp only [Option.map_some'] at hmap
      have := Option.some.inj hmap
      exact ⟨r, hr, by rw [← this]⟩

lemma mem_crime_aggregated_2010_2020 (rows : List RCrimeRow) (m : List MappedRow)
    (row : CrimeAggRow) (h : row ∈ crime_aggregated_2010_2020 rows m) :
    (∃ r ∈ crime_filtered 2010 2020 rows, row.District = lstrip0 r.district) ∧
    row.Total_Population = popLookupPost2009 m row.District row.year := by
  unfold crime_aggregated_2010_2020 at h
  obtain ⟨k, hk, rfl⟩ := List.mem_map.mp h
  obtain ⟨r, hr, hrd⟩ := mem_groupKeys _ k hk
  exact ⟨⟨r, hr, by rw [hrd]⟩, rfl⟩

lemma mem_crime_aggregated_monthly2005 (rows : List RCrimeRow)
    (f : List Filtered2005Row) (row : CrimeAggRow)
    (h : row ∈ crime_aggregated_monthly2005 rows f) :
    (∃ r ∈ crime_filtered 2005 2009 rows, row.District = lstrip0 r.district) ∧
    row.Total_Population = popLookup2005 f row.District := by
  unfold crime_aggregated_monthly2005 at h
  obtain ⟨k, hk, rfl⟩ := List.mem_map.mp h
  obtain ⟨r, hr, hrd⟩ := mem_groupKeys _ k hk
  obtain ⟨r0, hr0, rfl⟩ := List.mem_map.mp hr
  exact ⟨⟨r0, hr0, by rw [← hrd]⟩, rfl⟩

lemma normalized_of_mem_districts :
    ∀ s ∈ districts, lstrip0 (district_mapping s) ∈ normalizedDistricts := by decide

lemma crime_units_district_normalized (mdy : String → Option DT)
    (raws : List RawCrimeRow) (r : RCrimeRow) (hr : r ∈ crime_units mdy raws) :
    lstrip0 r.district ∈ normalizedDistricts := by
  obtain ⟨_, s, hs, hd⟩ := mem_crime_units mdy raws r hr
  rw [hd]
  exact normalized_of_mem_districts s hs

lemma crime_agg2010_district_normalized (mdy : String → Option DT)
    (raws : List RawCrimeRow) (m : List MappedRow) (row : CrimeAggRow)
    (h : row ∈ crime_aggregated_2010_2020 (crime_units mdy raws) m) :
    row.District ∈ normalizedDistricts := by
  obtain ⟨⟨r, hr, hD⟩, _⟩ := mem_crime_aggregated_2010_2020 _ _ _ h
  unfold crime_filtered at hr
  rw [hD]
  exact crime_units_district_normalized mdy raws r (List.mem_filter.mp hr).1

lemma crime_agg2005_district_normalized (mdy : String → Option DT)
    (raws : List RawCrimeRow) (f : List Filtered2005Row) (row : CrimeAggRow)
    (h : row ∈ crime_aggregated_monthly2005 (crime_units mdy raws) f) :
    row.District ∈ normalizedDistricts := by
  obtain ⟨⟨r, hr, hD⟩, _⟩ := mem_crime_aggregated_monthly2005 _ _ _ h
  unfold crime_filtered at hr
  rw [hD]
  exact crime_units_district_normalized mdy raws r (List.mem_filter.mp hr).1

/-! ## C10: the 2005-2009 population is constant per district -/

/-- C10: the 2005-2009 merge joins on District only, so any two aggregated
district-month rows of the same district carry the same merged
Total_Population, across all years and months. -/
theorem C10_pop_constant_per_district (rows : List RCrimeRow)
    (f : List Filtered2005Row) :
    ∀ r1 ∈ crime_aggregated_monthly2005 rows f,
      ∀ r2 ∈ crime_aggregated_monthly2005 rows f,
        r1.District = r2.District → r1.Total_Population = r2.Total_Population := by
  intro r1 h1 r2 h2 hD
  rw [(mem_crime_aggregated_monthly2005 rows f r1 h1).2,
      (mem_crime_aggregated_monthly2005 rows f r2 h2).2, hD]

/-- C10 witness: two months of district 1 in 2005 receive the same pooled
population. -/
theorem C10_witness :
    (⟨"1", 2005, 1, 0, 1, 0, 0, 0, 0,
        popLookup2005 (filtered_df (tracts_to_districts [⟨"t", "1", 1⟩])
          [⟨"t", fun _ => 22⟩]) "1"⟩ : CrimeAggRow).Total_Population
      = (⟨"1", 2005, 2, 1, 0, 0, 0, 0, 0,
          popLookup2005 (filtered_df (tracts_to_districts [⟨"t", "1", 1⟩])
            [⟨"t", fun _ => 22⟩]) "1"⟩ : CrimeAggRow).Total_Population := by
  have hlist : crime_aggregated_monthly2005
      [⟨some ⟨2005, 1⟩, "001", "THEFT", "Property Crime"⟩,
       ⟨some ⟨2005, 2⟩, "001", "ASSAULT", "Violent Crime"⟩]
      (filtered_df (tracts_to_districts [⟨"t", "1", 1⟩]) [⟨"t", fun _ => 22⟩])
      = [⟨"1", 2005, 1, 0, 1, 0, 0, 0, 0,
          popLookup2005 (filtered_df (tracts_to_districts [⟨"t", "1", 1⟩])
            [⟨"t", fun _ => 22⟩]) "1"⟩,
         ⟨"1", 2005, 2, 1, 0, 0, 0, 0, 0,
          popLookup2005 (filtered_df (tracts_to_districts [⟨"t", "1", 1⟩])
            [⟨"t", fun _ => 22⟩]) "1"⟩] := rfl
  exact C10_pop_constant_per_district _ _ _
    (by rw [hlist]; exact List.mem_cons_self _ _) _
    (by rw [hlist]; exact List.mem_cons_of_mem _ (List.mem_cons_self _ _)) rfl

/-! ## C5: normalized crime districts appear in the survey tables -/

/-- C5: after the R-step formatting and recoding and the notebook stripping
of leading zeros, every district identifier of either aggregated crime table
lies in the 22-element normalized set; provided the survey tables cover that
set, every crime district is present among the survey dist_num values. -/
theorem C5_district_ids_covered (mdy : String → Option DT) (raws : List RawCrimeRow)
    (m : List MappedRow) (f : List Filtered2005Row)
    (h10 : ∀ s ∈ normalizedDistricts,
      s ∈ (district_aggregated_post_2009_keys m).map Prod.fst)
    (h05 : ∀ s ∈ normalizedDistricts, s ∈ district_aggregated2005_keys f) :
    (∀ row ∈ crime_aggregated_2010_2020 (crime_units mdy raws) m,
        row.District ∈ (district_aggregated_post_2009_keys m).map Prod.fst) ∧
    (∀ row ∈ crime_aggregated_monthly2005 (crime_units mdy raws) f,
        row.District ∈ district_aggregated2005_keys f) := by
  constructor
  · intro row h
    exact h10 _ (crime_agg2010_district_normalized mdy raws m row h)
  · intro row h
    exact h05 _ (crime_agg2005_district_normalized mdy raws f row h)

/-- C5 witness: a survey table covering all 22 normalized districts, and a
crime record in district 001 whose normalized identifier 1 is found among the
survey dist_num values. -/
theorem C5_witness :
    ("1" : String) ∈ (district_aggregated_post_2009_keys
      (acs_mapped_post_2009 [⟨"t", 2010, fun _ => 22⟩]
        (tracts_to_districts (normalizedDistricts.map fun d =>
          ⟨"t", d, 1⟩)))).map Prod.fst := by
  have hlist : crime_aggregated_2010_2020
      (crime_units (fun _ => some ⟨2010, 1⟩) [⟨"d", some 1, "THEFT"⟩])
      (acs_mapped_post_2009 [⟨"t", 2010, fun _ => 22⟩]
        (tracts_to_districts (normalizedDistricts.map fun d => ⟨"t", d, 1⟩)))
      = [⟨"1", 2010, 1, 0, 1, 0, 0, 0, 0,
          popLookupPost2009
            (acs_mapped_post_2009 [⟨"t", 2010, fun _ => 22⟩]
              (tracts_to_districts (normalizedDistricts.map fun d => ⟨"t", d, 1⟩)))
            "1" 2010⟩] := rfl
  exact (C5_district_ids_covered (fun _ => some ⟨2010, 1⟩) [⟨"d", some 1, "THEFT"⟩]
      (acs_mapped_post_2009 [⟨"t", 2010, fun _ => 22⟩]
        (tracts_to_districts (normalizedDistricts.map fun d => ⟨"t", d, 1⟩)))
      (filtered_df (tracts_to_districts2005 (normalizedDistricts.map fun d => ⟨"t", d, 1⟩))
        [⟨"t", fun _ => 22⟩])
      (by decide) (by decide)).1 _
    (by rw [hlist]; exact List.mem_cons_self _ _)

lemma mem_overlay_dist (tracts : List String) (ds : List DistrictRow)
    (inter : String → String → Option ℚ) (r : InterRow)
    (h : r ∈ overlayIntersection tracts ds inter) : ∃ d ∈ ds, r.dist = d.dist_num := by
  unfold overlayIntersection at h
  obtain ⟨t, _, hr⟩ := List.mem_flatMap.mp h
  obtain ⟨d, hd, hmap⟩ := List.mem_filterMap.mp hr
  cases ha : inter t d.dist_num with
  | none => rw [ha] at hmap; simp at hmap
  | some a =>
      rw [ha] at hmap
      simp only [Option.map_some'] at hmap
      have := Option.some.inj hmap
      exact ⟨d, hd, by rw [← this]⟩

lemma dropDistrict31_no31 (dRows : List DistrictRow)
    (hlab : ∀ d ∈ dRows, d.dist_num = "31" → d.dist_label = "31ST") :
    ∀ d ∈ dropDistrict31 dRows, d.dist_num ≠ "31" := by
  intro d hd hnum
  have h := List.mem_filter.mp hd
  exact (of_decide_eq_true h.2) (hlab d h.1 hnum)

lemma mem_tracts_to_districts_dist (rows : List InterRow) (w : WeightRow)
    (h : w ∈ tracts_to_districts rows) : ∃ r ∈ rows, w.dist = r.dist := by
  unfold tracts_to_districts at h
  obtain ⟨r, hr, rfl⟩ := List.mem_map.mp h
  exact ⟨r, hr, rfl⟩

lemma mem_acs_mapped_dist (acs : List AcsRow) (w : List WeightRow) (mr : MappedRow)
    (h : mr ∈ acs_mapped_post_2009 acs w) : ∃ wr ∈ w, mr.dist = wr.dist := by
  unfold acs_mapped_post_2009 at h
  obtain ⟨a, _, hr⟩ := List.mem_flatMap.mp h
  obtain ⟨wr, hwr, rfl⟩ := List.mem_map.mp hr
  exact ⟨wr, (List.mem_filter.mp hwr).1, rfl⟩

lemma mem_filtered_df_dist (w : List WeightRow) (acs5 : List Acs2005Row)
    (fr : Filtered2005Row) (h : fr ∈ filtered_df w acs5) :
    ∃ wr ∈ w, fr.dist = wr.dist := by
  unfold filtered_df at h
  obtain ⟨wr, hwr, hr⟩ := List.mem_flatMap.mp h
  obtain ⟨a, _, rfl⟩ := List.mem_map.mp hr
  exact ⟨wr, hwr, rfl⟩

/-! ## C9: district 31 never appears in any output -/

/-- C9: when every input boundary row numbered 31 is labeled 31ST (as in the
source shapefile), the label filter that runs before the overlay keeps
district 31 out of both areal-weight tables and both district-level survey
tables; the aggregated crime tables cannot contain district 31 at all, since
31 is not reachable from the R-step district whitelist. -/
theorem C9_no_district_31 (tracts : List String) (dRows : List DistrictRow)
    (inter : String → String → Option ℚ) (acs : List AcsRow)
    (acs5 : List Acs2005Row) (mdy : String → Option DT) (raws : List RawCrimeRow)
    (m : List MappedRow) (f : List Filtered2005Row)
    (hlab : ∀ d ∈ dRows, d.dist_num = "31" → d.dist_label = "31ST") :
    (∀ r ∈ tracts_to_districts (overlayIntersection tracts (dropDistrict31 dRows) inter),
      r.dist ≠ "31") ∧
    (∀ r ∈ tracts_to_districts2005 (overlayIntersection tracts (dropDistrict31 dRows) inter),
      r.dist ≠ "31") ∧
    (∀ k ∈ district_aggregated_post_2009_keys (acs_mapped_post_2009 acs
        (tracts_to_districts (overlayIntersection tracts (dropDistrict31 dRows) inter))),
      k.1 ≠ "31") ∧
    (∀ d ∈ district_aggregated2005_keys (filtered_df
        (tracts_to_districts2005 (overlayIntersection tracts (dropDistrict31 dRows) inter))
        acs5),
      d ≠ "31") ∧
    (∀ row ∈ crime_aggregated_2010_2020 (crime_units mdy raws) m,
      row.District ≠ "31") ∧
    (∀ row ∈ crime_aggregated_monthly2005 (crime_units mdy raws) f,
      row.District ≠ "31") := by
  have hover : ∀ r ∈ overlayIntersection tracts (dropDistrict31 dRows) inter,
      r.dist ≠ "31" := by
    intro r hr
    obtain ⟨d, hd, hdist⟩ := mem_overlay_dist _ _ _ r hr
    rw [hdist]
    exact dropDistrict31_no31 dRows hlab d hd
  have hw : ∀ r ∈ tracts_to_districts (overlayIntersection tracts (dropDistrict31 dRows) inter),
      r.dist ≠ "31" := by
    intro r hr
    obtain ⟨ir, hir, hdist⟩ := mem_tracts_to_districts_dist _ r hr
    rw [hdist]
    exact hover ir hir
  have hw5 : ∀ r ∈ tracts_to_districts2005
      (overlayIntersection tracts (dropDistrict31 dRows) inter), r.dist ≠ "31" := by
    intro r hr
    unfold tracts_to_districts2005 at hr
    exact hw r (List.mem_filter.mp hr).1
  have h31 : ("31" : String) ∉ normalizedDistricts := by decide
  refine ⟨hw, hw5, ?_, ?_, ?_, ?_⟩
  · intro k hk
    have hk' := List.mem_dedup.mp hk
    obtain ⟨mr, hmr, hkeq⟩ := List.mem_map.mp hk'
    obtain ⟨wr, hwr, hdist⟩ := mem_acs_mapped_dist _ _ mr hmr
    rw [← hkeq]
    simpa [hdist] using hw wr hwr
  · intro d hd
    have hd' := List.mem_dedup.mp hd
    obtain ⟨fr, hfr, hdeq⟩ := List.mem_map.mp hd'
    obtain ⟨wr, hwr, hdist⟩ := mem_filtered_df_dist _ _ fr hfr
    rw [← hdeq]
    simpa [hdist] using hw5 wr hwr
  · intro row h hD
    exact h31 (hD ▸ crime_agg2010_district_normalized mdy raws m row h)
  · intro row h hD
    exact h31 (hD ▸ crime_agg2005_district_normalized mdy raws f row h)

/-- C9 witness: a boundary table holding districts 1 and 31; the aggregated
crime row of district 1 is not district 31. -/
theorem C9_witness :
    (⟨"1", 2010, 1, 0, 1, 0, 0, 0, 0, none⟩ : CrimeAggRow).District ≠ "31" := by
  have hlist : crime_aggregated_2010_2020
      (crime_units (fun _ => some ⟨2010, 1⟩) [⟨"d", some 1, "THEFT"⟩]) []
      = [⟨"1", 2010, 1, 0, 1, 0, 0, 0, 0, none⟩] := rfl
  exact (C9_no_district_31 ["t"] [⟨"1", "001ST"⟩, ⟨"31", "31ST"⟩]
      (fun _ _ => some 1) [] [] (fun _ => some ⟨2010, 1⟩) [⟨"d", some 1, "THEFT"⟩]
      [] [] (by decide)).2.2.2.2.1 _
    (by rw [hlist]; exact List.mem_cons_self _ _)

lemma totalTractArea_nonneg (rows : List InterRow) (hA : ∀ r ∈ rows, 0 ≤ r.area)
    (t : String) : 0 ≤ totalTractArea rows t := by
  apply List.sum_nonneg
  intro x hx
  obtain ⟨r, hr, rfl⟩ := List.mem_map.mp hx
  exact hA r (List.mem_filter.mp hr).1

lemma proportion_nonneg (rows : List InterRow) (hA : ∀ r ∈ rows, 0 ≤ r.area) :
    ∀ wr ∈ tracts_to_districts rows, 0 ≤ wr.proportion := by
  intro wr hwr
  unfold tracts_to_districts at hwr
  obtain ⟨r, hr, rfl⟩ := List.mem_map.mp hwr
  exact div_nonneg (hA r hr) (totalTractArea_nonneg rows hA r.tract)

lemma district_val_nonneg (acs : List AcsRow) (w : List WeightRow)
    (hV : ∀ a ∈ acs, ∀ v, 0 ≤ a.val v) (hw : ∀ r ∈ w, 0 ≤ r.proportion)
    (d : String) (y : ℤ) (v : AcsVar) :
    0 ≤ district_aggregated_post_2009_val (acs_mapped_post_2009 acs w) d y v := by
  apply List.sum_nonneg
  intro x hx
  obtain ⟨mr, hmr, rfl⟩ := List.mem_map.mp hx
  have hmr' := (List.mem_filter.mp hmr).1
  obtain ⟨a, ha, hblock⟩ := List.mem_flatMap.mp hmr'
  obtain ⟨r, hr, rfl⟩ := List.mem_map.mp hblock
  exact mul_nonneg (hV a ha v) (hw r (List.mem_filter.mp hr).1)

lemma pop2005_nonneg (w : List WeightRow) (acs5 : List Acs2005Row)
    (hV5 : ∀ a ∈ acs5, ∀ v, 0 ≤ a.val v) (d : String) :
    0 ≤ district_aggregated2005_pop (filtered_df w acs5) d := by
  apply List.sum_nonneg
  intro x hx
  obtain ⟨fr, hfr, rfl⟩ := List.mem_map.mp hx
  have hfr' := (List.mem_filter.mp hfr).1
  obtain ⟨wr, hwr, hblock⟩ := List.mem_flatMap.mp hfr'
  obtain ⟨a, ha, rfl⟩ := List.mem_map.mp hblock
  exact hV5 a (List.mem_filter.mp ha).1 AcsVar.totalPop

lemma rate_nonneg_of_pop (r : CrimeAggRow)
    (hp : ∀ p, r.Total_Population = some p → 0 ≤ p) :
    (∀ c q, rate r c = some q → 0 ≤ q) ∧ 0 ≤ total_crime_rate r := by
  have hrate : ∀ c q, rate r c = some q → 0 ≤ q := by
    intro c q hq
    unfold rate at hq
    cases hP : r.Total_Population with
    | none => rw [hP] at hq; simp at hq
    | some p =>
        rw [hP] at hq
        simp only [Option.map_some'] at hq
        rw [← Option.some.inj hq]
        exact mul_nonneg (div_nonneg (Nat.cast_nonneg _) (hp p hP)) (by norm_num)
  refine ⟨hrate, ?_⟩
  apply List.sum_nonneg
  intro x hx
  obtain ⟨c, _, rfl⟩ := List.mem_map.mp hx
  cases hr : rate r c with
  | none => simp [hr]
  | some q => simpa [hr] using hrate c q hr

/-! ## C3: all computed crime rates are non-negative -/

/-- C3: with non-negative intersection areas and non-negative survey values,
every per-category rate that is computed in either aggregated table is
non-negative, and so is every total_crime_rate. -/
theorem C3_rates_nonneg (interRows : List InterRow) (acs : List AcsRow)
    (acs5 : List Acs2005Row) (crimeRows : List RCrimeRow)
    (hA : ∀ r ∈ interRows, 0 ≤ r.area)
    (hV : ∀ a ∈ acs, ∀ v, 0 ≤ a.val v)
    (hV5 : ∀ a ∈ acs5, ∀ v, 0 ≤ a.val v) :
    (∀ row ∈ crime_aggregated_2010_2020 crimeRows
        (acs_mapped_post_2009 acs (tracts_to_districts interRows)),
      (∀ c q, rate row c = some q → 0 ≤ q) ∧ 0 ≤ total_crime_rate row) ∧
    (∀ row ∈ crime_aggregated_monthly2005 crimeRows
        (filtered_df (tracts_to_districts2005 interRows) acs5),
      (∀ c q, rate row c = some q → 0 ≤ q) ∧ 0 ≤ total_crime_rate row) := by
  constructor
  · intro row h
    apply rate_nonneg_of_pop
    intro p hp
    rw [(mem_crime_aggregated_2010_2020 _ _ _ h).2] at hp
    unfold popLookupPost2009 at hp
    split at hp
    · rw [← Option.some.inj hp]
      exact district_val_nonneg acs _ hV (proportion_nonneg interRows hA) _ _ _
    · exact absurd hp (by simp)
  · intro row h
    apply rate_nonneg_of_pop
    intro p hp
    rw [(mem_crime_aggregated_monthly2005 _ _ _ h).2] at hp
    unfold popLookup2005 at hp
    split at hp
    · rw [← Option.some.inj hp]
      exact pop2005_nonneg _ acs5 hV5 _
    · exact absurd hp (by simp)

/-- C3 witness: the district-month row of a concrete run has a non-negative
total crime rate. -/
theorem C3_witness :
    0 ≤ total_crime_rate (⟨"1", 2010, 1, 0, 1, 0, 0, 0, 0,
      popLookupPost2009 (acs_mapped_post_2009 [⟨"t", 2010, fun _ => 5⟩]
        (tracts_to_districts [⟨"t", "1", 1⟩])) "1" 2010⟩ : CrimeAggRow) := by
  have hlist : crime_aggregated_2010_2020
      [⟨some ⟨2010, 1⟩, "001", "THEFT", "Property Crime"⟩]
      (acs_mapped_post_2009 [⟨"t", 2010, fun _ => 5⟩] (tracts_to_districts [⟨"t", "1", 1⟩]))
      = [⟨"1", 2010, 1, 0, 1, 0, 0, 0, 0,
          popLookupPost2009 (acs_mapped_post_2009 [⟨"t", 2010, fun _ => 5⟩]
            (tracts_to_districts [⟨"t", "1", 1⟩])) "1" 2010⟩] := rfl
  exact ((C3_rates_nonneg [⟨"t", "1", 1⟩] [⟨"t", 2010, fun _ => 5⟩] [⟨"t", fun _ => 5⟩]
      [⟨some ⟨2010, 1⟩, "001", "THEFT", "Property Crime"⟩]
      (by decide) (by decide) (by decide)).1 _
    (by rw [hlist]; exact List.mem_cons_self _ _)).2

/-! ## C4: no positivity check guards the rate divisions -/

/-- C4 counterexample: a concrete run in which the survey population of
district 1 in 2010 is zero: the aggregated row carries Total_Population
some 0, which is not positive, and its Property Crime rate is nevertheless
computed, dividing by zero. -/
theorem C4_counterexample :
    (⟨"1", 2010, 1, 0, 1, 0, 0, 0, 0,
        popLookupPost2009 (acs_mapped_post_2009 [⟨"t", 2010, fun _ => 0⟩]
          (tracts_to_districts [⟨"t", "1", 1⟩])) "1" 2010⟩ : CrimeAggRow)
      ∈ crime_aggregated_2010_2020 [⟨some ⟨2010, 1⟩, "001", "THEFT", "Property Crime"⟩]
          (acs_mapped_post_2009 [⟨"t", 2010, fun _ => 0⟩]
            (tracts_to_districts [⟨"t", "1", 1⟩])) ∧
    popLookupPost2009 (acs_mapped_post_2009 [⟨"t", 2010, fun _ => 0⟩]
        (tracts_to_districts [⟨"t", "1", 1⟩])) "1" 2010 = some 0 ∧
    rate (⟨"1", 2010, 1, 0, 1, 0, 0, 0, 0, some 0⟩ : CrimeAggRow) Cat.property
      = some 0 := by
  refine ⟨List.mem_cons_self _ _, ?_, ?_⟩
  · norm_num [popLookupPost2009, district_aggregated_post_2009_keys,
      district_aggregated_post_2009_val, acs_mapped_post_2009, tracts_to_districts,
      totalTractArea, List.dedup]
  · norm_num [rate, CrimeAggRow.count]

/-- C4 amended: a rate is computed for every aggregated district-month row
with no check on the merged population: the rate column is exactly the merged
population mapped through count divided by population times 1000, so a
missing population yields a missing rate and a zero population is divided by
as-is; positivity of Total_Population is a data assumption the code does not
enforce. -/
theorem C4_amended_rates_unconditional (crimeRows : List RCrimeRow)
    (m : List MappedRow) (f : List Filtered2005Row) :
    (∀ row ∈ crime_aggregated_2010_2020 crimeRows m, ∀ c,
      rate row c = (popLookupPost2009 m row.District row.year).map
        (fun p => (row.count c : ℚ) / p * 1000)) ∧
    (∀ row ∈ crime_aggregated_monthly2005 crimeRows f, ∀ c,
      rate row c = (popLookup2005 f row.District).map
        (fun p => (row.count c : ℚ) / p * 1000)) := by
  constructor
  · intro row h c
    unfold rate
    rw [(mem_crime_aggregated_2010_2020 _ _ _ h).2]
  · intro row h c
    unfold rate
    rw [(mem_crime_aggregated_monthly2005 _ _ _ h).2]

/-- C4 witness: the amended statement at the zero-population run. -/
theorem C4_witness :
    rate (⟨"1", 2010, 1, 0, 1, 0, 0, 0, 0,
        popLookupPost2009 (acs_mapped_post_2009 [⟨"t", 2010, fun _ => 0⟩]
          (tracts_to_districts [⟨"t", "1", 1⟩])) "1" 2010⟩ : CrimeAggRow) Cat.property
      = (popLookupPost2009 (acs_mapped_post_2009 [⟨"t", 2010, fun _ => 0⟩]
          (tracts_to_districts [⟨"t", "1", 1⟩])) "1" 2010).map
        (fun p => ((⟨"1", 2010, 1, 0, 1, 0, 0, 0, 0,
            popLookupPost2009 (acs_mapped_post_2009 [⟨"t", 2010, fun _ => 0⟩]
              (tracts_to_districts [⟨"t", "1", 1⟩])) "1" 2010⟩ : CrimeAggRow).count
          Cat.property : ℚ) / p * 1000) :=
  (C4_amended_rates_unconditional [⟨some ⟨2010, 1⟩, "001", "THEFT", "Property Crime"⟩]
      (acs_mapped_post_2009 [⟨"t", 2010, fun _ => 0⟩] (tracts_to_districts [⟨"t", "1", 1⟩]))
      []).1 _ (List.mem_cons_self _ _) Cat.property

lemma dval_append (m1 m2 : List MappedRow) (d : String) (y : ℤ) (v : AcsVar) :
    district_aggregated_post_2009_val (m1 ++ m2) d y v
      = district_aggregated_post_2009_val m1 d y v
        + district_aggregated_post_2009_val m2 d y v := by
  unfold district_aggregated_post_2009_val
  rw [List.filter_append, List.map_append, List.sum_append]

lemma dval_block_eq (a : AcsRow) (l : List WeightRow) (d : String) (y : ℤ)
    (v : AcsVar) (hy : a.year = y) :
    district_aggregated_post_2009_val
        (l.map fun r => ⟨a.geoid, a.year, r.dist, fun v' => a.val v' * r.proportion⟩) d y v
      = ((l.filter fun r => decide (r.dist = d)).map fun r => a.val v * r.proportion).sum := by
  unfold district_aggregated_post_2009_val
  induction l with
  | nil => simp
  | cons r l ih =>
      simp only [Bool.decide_and, hy] at ih ⊢
      by_cases hd : r.dist = d <;>
        simp [List.filter_cons, hd, ih]

lemma dval_block_ne (a : AcsRow) (l : List WeightRow) (d : String) (y : ℤ)
    (v : AcsVar) (hy : ¬ a.year = y) :
    district_aggregated_post_2009_val
        (l.map fun r => ⟨a.geoid, a.year, r.dist, fun v' => a.val v' * r.proportion⟩)
      d y v = 0 := by
  unfold district_aggregated_post_2009_val
  induction l with
  | nil => simp
  | cons r l ih =>
      simp only [Bool.decide_and] at ih ⊢
      simp [List.filter_cons, hy, ih]

/-! ## C2: areal weighting of the district survey aggregates -/

/-- C2: the claimed areal weighting fails on the 2005-2009 path and holds on
the 2010-2020 path.  Concretely: a tract of population 100 split half-half
between districts 1 and 2 contributes its full 100 to district 1 in
district_aggregated2005, while the areal-weighting formula of the spec gives
50, because the 2005-2009 notebook computes the proportion column but never
multiplies any attribute by it.  In contrast, every cell of the 2010-2020
aggregation equals the spec formula, the sum over intersecting tracts of the
attribute value times the tract-district proportion. -/
theorem C2_areal_weighting :
    district_aggregated2005_pop
        (filtered_df (tracts_to_districts2005 [⟨"t", "1", 1⟩, ⟨"t", "2", 1⟩])
          [⟨"t", fun _ => 100⟩]) "1" = 100 ∧
    arealWeightedPop2005 (tracts_to_districts2005 [⟨"t", "1", 1⟩, ⟨"t", "2", 1⟩])
        [⟨"t", fun _ => 100⟩] "1" = 50 ∧
    (∀ (acs : List AcsRow) (w : List WeightRow) (d : String) (y : ℤ) (v : AcsVar),
      district_aggregated_post_2009_val (acs_mapped_post_2009 acs w) d y v
        = arealWeightedDistrictVal acs w d y v) := by
  refine ⟨?_, ?_, ?_⟩
  · simp +decide [district_aggregated2005_pop, filtered_df, tracts_to_districts2005,
      tracts_to_districts, totalTractArea, List.flatMap_cons, List.flatMap_nil,
      List.filter_cons]
  · simp +decide [arealWeightedPop2005, tracts_to_districts2005, tracts_to_districts,
      totalTractArea, List.filter_cons]
    norm_num
  · intro acs w d y v
    induction acs with
    | nil =>
        simp [acs_mapped_post_2009, district_aggregated_post_2009_val,
          arealWeightedDistrictVal]
    | cons a acs ih =>
        have hsplit : acs_mapped_post_2009 (a :: acs) w
            = ((w.filter fun r => decide (r.tract = a.geoid)).map fun r =>
                ⟨a.geoid, a.year, r.dist, fun v' => a.val v' * r.proportion⟩)
              ++ acs_mapped_post_2009 acs w := by
          simp [acs_mapped_post_2009]
        rw [hsplit, dval_append, ih]
        by_cases hy : a.year = y
        · rw [dval_block_eq a _ d y v hy]
          have hrhs : arealWeightedDistrictVal (a :: acs) w d y v
              = ((w.filter fun r => decide (r.tract = a.geoid ∧ r.dist = d)).map
                  fun r => a.val v * r.proportion).sum
                + arealWeightedDistrictVal acs w d y v := by
            simp [arealWeightedDistrictVal, List.filter_cons, hy]
          rw [hrhs]
          congr 1
          rw [List.filter_filter]
          have hpred : ∀ r ∈ w, (decide (r.dist = d) && decide (r.tract = a.geoid))
              = decide (r.tract = a.geoid ∧ r.dist = d) := by
            intro r _
            simp [Bool.and_comm]
          rw [List.filter_congr hpred]
        · rw [dval_block_ne a _ d y v hy, zero_add]
          simp [arealWeightedDistrictVal, List.filter_cons, hy]

end SAN7
